import Mathlib

/-!
Shallow embedding of the `zcc-recording-archiver` repository
(`src/zoom.py`, `src/main.py`): an OAuth token-lifecycle client and a
paginated list-then-download workflow for contact-center recordings.

HTTP traffic is modelled by passing each network interaction's response in
as data; `sys.exit(n)` and Python runtime errors are modelled by explicit
outcome constructors; timestamps are integers (POSIX seconds).
-/

namespace ZCC

/-- Python's `requests.Response.raise_for_status` raises `HTTPError`
exactly for client-error (4xx) and server-error (5xx) status codes. -/
def isHttpError (status : Nat) : Bool :=
  decide (400 ≤ status) && decide (status < 600)

/-- Ways the process can stop abnormally: `sys.exit(code)` (also the
builtin `exit(code)`), or an uncaught Python `TypeError`. -/
inductive Abort where
  | exitCode : Nat → Abort
  | typeError : Abort
deriving DecidableEq, Repr

/-- State of `zoom.Client` (src/zoom.py, lines 36-42).  The credential
fields (`account_id`, `client_id`, `b64`) are omitted: they feed only the
outbound Basic/Bearer auth headers, which no modelled observable depends
on.  `token` and `expiry_time` are both `None` until the first successful
exchange. -/
structure Client where
  token : Option String
  expiry_time : Option Int
deriving DecidableEq, Repr

/-- A freshly constructed `zoom.Client`: `self.token = None`,
`self.expiry_time = None`. -/
def Client.init : Client :=
  { token := none, expiry_time := none }

/-- The observable part of the token endpoint's JSON reply plus its HTTP
status: fields `access_token` and `expires_in` (seconds). -/
structure TokenResponse where
  status : Nat
  access_token : String
  expires_in : Int
deriving DecidableEq, Repr

/-- `Client.get_token` (src/zoom.py, lines 44-70).  On an HTTP error
status `raise_for_status` raises, the handler does `sys.exit(1)`; on
success the client stores the token and `expiry_time = now + expires_in`
(`now` is `datetime.now().timestamp()` taken after the response arrives).
The returned token string is the stored one, so only the state is kept. -/
def Client.get_token (c : Client) (now : Int) (resp : TokenResponse) :
    Except Nat Client :=
  if isHttpError resp.status then
    Except.error 1
  else
    Except.ok { c with
      token := some resp.access_token,
      expiry_time := some (now + resp.expires_in) }

/-- `Client.token_has_expired` (src/zoom.py, lines 72-80): evaluates
`now > self.expiry_time`.  When `expiry_time` is `None` (no exchange has
succeeded yet) the Python comparison `float > None` raises `TypeError`,
modelled as `Except.error ()`; otherwise the strict comparison's Boolean
value is returned. -/
def Client.token_has_expired (c : Client) (now : Int) : Except Unit Bool :=
  match c.expiry_time with
  | none => Except.error ()
  | some e => Except.ok (decide (e < now))

/-- A recorded asset, `Recording.__init__` (src/main.py, lines 55-69). -/
structure Recording where
  start_time : String
  engagement_id : String
  channel_type : String
  recording_id : String
  download_url : String
deriving DecidableEq, Repr

/-- The derived `filename` attribute (src/main.py, lines 68-69): the
f-string interpolation of `start_time`, `engagement_id`, `recording_id`
and the extension chosen by `channel_type == "voice"`. -/
def Recording.filename (r : Recording) : String :=
  r.start_time ++ "_" ++ r.engagement_id ++ "_" ++ r.recording_id ++ "." ++
    (if r.channel_type == "voice" then "mp3" else "mp4")

/-- The class attribute `Client.base_url` (src/zoom.py, line 34). -/
def base_url : String := "https://api.zoom.us/v2"

/-- The list endpoint URL (src/main.py, line 130). -/
def list_endpoint : String := base_url ++ "/contact_center/recordings"

/-- One element of a list response's `recordings` array, with the JSON
field names used by the API. -/
structure ListElement where
  recording_start_time : String
  engagement_id : String
  channel_type : String
  recording_id : String
  download_url : String
deriving DecidableEq, Repr

/-- Construction of a `Recording` from one response element
(src/main.py, lines 152-161): `recording_start_time` maps to
`start_time`, the remaining fields map by name. -/
def mkRecording (e : ListElement) : Recording :=
  { start_time := e.recording_start_time
    engagement_id := e.engagement_id
    channel_type := e.channel_type
    recording_id := e.recording_id
    download_url := e.download_url }

/-- The observable part of one list-endpoint response: HTTP status, the
`recordings` array, and the `next_page_token` cursor. -/
structure ListPage where
  status : Nat
  recordings : List ListElement
  next_page_token : String
deriving DecidableEq, Repr

/-- Environment of one listing-loop iteration: the wall-clock time at the
token check, the token endpoint's would-be response, and the list
endpoint's response to this iteration's GET. -/
structure IterEnv where
  now : Int
  tokenResp : TokenResponse
  page : ListPage
deriving DecidableEq, Repr

/-- A GET actually issued to the list endpoint: the URL and the query
parameters passed to `requests` (the auth header is elided). -/
structure ListRequest where
  url : String
  queryParams : List (String × String)
deriving DecidableEq, Repr

/-- The `params` dict built at src/main.py lines 134-138: the date-range
pairs, `channel_type=voice`, and an initially empty `next_page_token`.
The loop later mutates its `next_page_token` entry (line 162), but the
dict is never passed to `req.get` (line 148). -/
def built_params (date_range : List (String × String)) :
    List (String × String) :=
  date_range ++ [("channel_type", "voice"), ("next_page_token", "")]

/-- Why the listing loop stopped without producing a list: a process
abort, or the supplied response environment ran out (the loop would have
issued another request). -/
inductive LoopStop where
  | aborted : Abort → LoopStop
  | starved : LoopStop
deriving DecidableEq, Repr

/-- Result of a listing run: the trace of GETs issued to the list
endpoint, and either the returned `recording_list` or the reason the
process stopped. -/
structure ListResult where
  requests : List ListRequest
  outcome : Except LoopStop (List Recording)
deriving Repr

/-- The token check-and-refresh at the top of a loop iteration
(src/main.py, lines 143-147; the same block appears inside
`Recording.download`, lines 96-100): reading `token_has_expired` raises
`TypeError` when no expiry is set; an expired token triggers `get_token`,
whose failure exits the process; otherwise the (possibly refreshed)
client continues. -/
def refresh_if_expired (c : Client) (now : Int) (resp : TokenResponse) :
    Except Abort Client :=
  match c.token_has_expired now with
  | Except.error _ => Except.error Abort.typeError
  | Except.ok expired =>
    if expired then
      match c.get_token now resp with
      | Except.error code => Except.error (Abort.exitCode code)
      | Except.ok c2 => Except.ok c2
    else Except.ok c

/-- The `while True` loop of `get_recording_list` (src/main.py, lines
142-164), one environment entry per iteration: refresh the token if
needed, issue the GET (with no query parameters — line 148 passes only
headers and a timeout), exit(1) on an HTTP error status (lines 165-168),
append the page's recordings when the array is non-empty (lines 151-161),
store the response's `next_page_token` into the params dict (line 162)
and break when it is empty (lines 163-164). -/
def list_loop (c : Client) (npt : String) (acc : List Recording) :
    List IterEnv → ListResult
  | [] => { requests := [], outcome := Except.error LoopStop.starved }
  | e :: rest =>
    match refresh_if_expired c e.now e.tokenResp with
    | Except.error a =>
        { requests := [], outcome := Except.error (LoopStop.aborted a) }
    | Except.ok c2 =>
      let req : ListRequest := { url := list_endpoint, queryParams := [] }
      if isHttpError e.page.status then
        { requests := [req],
          outcome := Except.error (LoopStop.aborted (Abort.exitCode 1)) }
      else
        let acc2 := if e.page.recordings = [] then acc
                    else acc ++ e.page.recordings.map mkRecording
        if e.page.next_page_token = "" then
          { requests := [req], outcome := Except.ok acc2 }
        else
          let r := list_loop c2 e.page.next_page_token acc2 rest
          { requests := req :: r.requests, outcome := r.outcome }

/-- `get_recording_list` (src/main.py, lines 117-170): builds the params
dict (which the loop never sends) and runs the pagination loop from an
empty accumulator and an empty cursor. -/
def get_recording_list (c : Client) (date_range : List (String × String))
    (env : List IterEnv) : ListResult :=
  let _params := built_params date_range
  list_loop c "" [] env

/-- All token-endpoint responses in the environment are successful. -/
def tokensOk (env : List IterEnv) : Bool :=
  env.all (fun e => !isHttpError e.tokenResp.status)

/-- All list-endpoint responses in the environment are successful. -/
def pagesOk (env : List IterEnv) : Bool :=
  env.all (fun e => !isHttpError e.page.status)

/-- The page shape of the claims: every page except the last carries a
non-empty continuation cursor, and the last page's cursor is empty. -/
def pagesShape : List IterEnv → Bool
  | [] => false
  | e :: rest =>
      if rest.isEmpty then e.page.next_page_token == ""
      else (e.page.next_page_token != "") && pagesShape rest

/-- The loop reaches a page whose response is an HTTP error: either the
first page errors, or it succeeds with a non-empty cursor and a later
page errors. -/
def reachesHttpError : List IterEnv → Bool
  | [] => false
  | e :: rest =>
      isHttpError e.page.status ||
        ((e.page.next_page_token != "") && reachesHttpError rest)

/-- The concatenation of all pages' recordings, in page-and-response
order. -/
def allPageRecs : List IterEnv → List Recording
  | [] => []
  | e :: rest => e.page.recordings.map mkRecording ++ allPageRecs rest

/-- Concrete client used by witnesses: a client after one successful
token exchange. -/
def cW : Client := { token := some "tok", expiry_time := some 1000 }

/-- Concrete list-response element used by witnesses. -/
def recElemW : ListElement :=
  { recording_start_time := "2023-10-05T12:00:00", engagement_id := "E1"
    channel_type := "voice", recording_id := "R1"
    download_url := "http://dl/1" }

/-- Concrete two-page environment: the first page has zero recordings
but a non-empty cursor, the second page has one recording and an empty
cursor. -/
def envW : List IterEnv :=
  [ { now := 1, tokenResp := ⟨200, "t2", 3600⟩
      page := { status := 200, recordings := [], next_page_token := "c1" } },
    { now := 2, tokenResp := ⟨200, "t3", 3600⟩
      page := { status := 200, recordings := [recElemW], next_page_token := "" } } ]

/-- Concrete environment whose second page fails with HTTP 500 after a
successful first page with a non-empty cursor. -/
def envE : List IterEnv :=
  [ { now := 1, tokenResp := ⟨200, "t2", 3600⟩
      page := { status := 200, recordings := [recElemW], next_page_token := "c1" } },
    { now := 2, tokenResp := ⟨200, "t3", 3600⟩
      page := { status := 500, recordings := [], next_page_token := "x" } } ]

/-- Environment of one `Recording.download` call: the wall-clock time at
the token check, the token endpoint's would-be response, and the HTTP
status and body answered by the recording's `download_url`. -/
structure DlEnv where
  now : Int
  tokenResp : TokenResponse
  status : Nat
  body : String
deriving DecidableEq, Repr

/-- Local filesystem state: whether the target directory exists, whether
creating it raises `PermissionError`, and the file-write events so far
(filename and content, in order of writing). -/
structure FS where
  dirExists : Bool
  permErr : Bool
  files : List (String × String)
deriving DecidableEq, Repr

/-- How a `Recording.download` call ends: a normal Python return value,
or termination of the process. -/
inductive DlRet where
  | returned : Bool → DlRet
  | aborted : Abort → DlRet
deriving DecidableEq, Repr

/-- Observables of one `Recording.download` call: how it ended, the
client and filesystem afterwards, whether `path.mkdir` was attempted,
and whether the GET to `download_url` was issued. -/
structure DlResult where
  outcome : DlRet
  client : Client
  fs : FS
  mkdirAttempted : Bool
  getIssued : Bool
deriving DecidableEq, Repr

/-- `Recording.download` (src/main.py, lines 71-111): if the target
directory does not exist it is created, `PermissionError` exiting the
process (lines 87-93); then the token is checked and refreshed if
expired (lines 96-100); then the GET to `download_url` is issued and
`raise_for_status` checked — on an HTTP error status the `HTTPError` is
caught and merely logged, and no file is opened (lines 101-110); on
success the body is written to `path/filename` (lines 105-108).  Either
way the method returns `True` (line 111). -/
def Recording.download (rec : Recording) (c : Client) (fs : FS)
    (env : DlEnv) : DlResult :=
  if !fs.dirExists && fs.permErr then
    { outcome := DlRet.aborted (Abort.exitCode 1), client := c, fs := fs
      mkdirAttempted := true, getIssued := false }
  else
    let mkd := !fs.dirExists
    let fs1 : FS := { fs with dirExists := true }
    match refresh_if_expired c env.now env.tokenResp with
    | Except.error a =>
        { outcome := DlRet.aborted a, client := c, fs := fs1
          mkdirAttempted := mkd, getIssued := false }
    | Except.ok c2 =>
        if isHttpError env.status then
          { outcome := DlRet.returned true, client := c2, fs := fs1
            mkdirAttempted := mkd, getIssued := true }
        else
          { outcome := DlRet.returned true, client := c2
            fs := { fs1 with files := fs1.files ++ [(rec.filename, env.body)] }
            mkdirAttempted := mkd, getIssued := true }

/-- Observables of the download loop in `main` (src/main.py, lines
179-182): whether and how the process aborted, the values returned by
the `download` calls (the loop itself discards them), how many
recordings had `download` invoked, how many download GETs were issued,
how many `path.mkdir` attempts happened, and the final filesystem and
client. -/
structure BatchResult where
  aborted : Option Abort
  returnedVals : List Bool
  attempted : Nat
  getsIssued : Nat
  mkdirAttempts : Nat
  fs : FS
  client : Client
deriving Repr

/-- The `for recording in recording_list: recording.download(...)` loop
of `main` (src/main.py, lines 180-181), one environment entry per
recording. -/
def download_batch (c : Client) (fs : FS) :
    List (Recording × DlEnv) → BatchResult
  | [] => { aborted := none, returnedVals := [], attempted := 0
            getsIssued := 0, mkdirAttempts := 0, fs := fs, client := c }
  | (r, e) :: rest =>
    let d := r.download c fs e
    match d.outcome with
    | DlRet.aborted a =>
        { aborted := some a, returnedVals := [], attempted := 1
          getsIssued := if d.getIssued then 1 else 0
          mkdirAttempts := if d.mkdirAttempted then 1 else 0
          fs := d.fs, client := d.client }
    | DlRet.returned b =>
        let rest2 := download_batch d.client d.fs rest
        { aborted := rest2.aborted, returnedVals := b :: rest2.returnedVals
          attempted := rest2.attempted + 1
          getsIssued := (if d.getIssued then 1 else 0) + rest2.getsIssued
          mkdirAttempts :=
            (if d.mkdirAttempted then 1 else 0) + rest2.mkdirAttempts
          fs := rest2.fs, client := rest2.client }

/-- All token-endpoint responses in a batch are successful. -/
def dlTokensOk (items : List (Recording × DlEnv)) : Bool :=
  items.all (fun p => !isHttpError p.2.tokenResp.status)

/-- The write events a batch should produce: one file per recording
whose own download succeeds, in list order. -/
def savedFiles : List (Recording × DlEnv) → List (String × String)
  | [] => []
  | p :: rest =>
      if isHttpError p.2.status then savedFiles rest
      else (p.1.filename, p.2.body) :: savedFiles rest

/-- Concrete recording used by witnesses. -/
def recW : Recording := mkRecording recElemW

/-- Second concrete recording used by witnesses. -/
def recW2 : Recording :=
  { start_time := "2023-10-06T08:30:00", engagement_id := "E2"
    channel_type := "video", recording_id := "R2"
    download_url := "http://dl/2" }

/-- Concrete filesystem whose target directory already exists. -/
def fsW : FS := { dirExists := true, permErr := false, files := [] }

/-- Concrete filesystem whose target directory is missing and whose
creation raises `PermissionError`. -/
def fsP : FS := { dirExists := false, permErr := true, files := [] }

/-- Concrete download environment answering HTTP 200. -/
def envD200 : DlEnv :=
  { now := 3, tokenResp := ⟨200, "t4", 3600⟩, status := 200, body := "bytes" }

/-- Concrete download environment answering HTTP 404. -/
def envD404 : DlEnv :=
  { now := 4, tokenResp := ⟨200, "t5", 3600⟩, status := 404, body := "" }

end ZCC

namespace ZCC

/-- C3: on a freshly constructed client no expiry is set, so the check
`now > self.expiry_time` compares a float with `None`: `token_has_expired`
raises `TypeError` instead of returning `True` as the spec requires.
Evaluated here at query time 0. -/
theorem C3_fresh_client_expiry_check_raises :
    Client.init.token_has_expired 0 = Except.error () ∧
    Client.init.token_has_expired 0 ≠ Except.ok true := by
  exact ⟨rfl, by simp [Client.init, Client.token_has_expired]⟩

/-- C4 counterexample: take fetch time T = 0 and lifetime L = 10, so the
stored expiry is 0 + 10 = 10.  The claim says every query time ≥ T + L
(in particular 10 itself) is reported expired, but the code's strict
comparison `now > expiry` reports `false` at exactly 10. -/
theorem C4_boundary_counterexample :
    Client.init.get_token 0 ⟨200, "tok", 10⟩ =
      Except.ok { token := some "tok", expiry_time := some 10 } ∧
    (10 : Int) ≥ 0 + 10 ∧
    Client.token_has_expired { token := some "tok", expiry_time := some 10 } 10 =
      Except.ok false := by
  refine ⟨rfl, by decide, rfl⟩

/-- C4 (amended): after a successful `get_token` at time T with
server-reported lifetime L, `token_has_expired` reports expired exactly
for query times strictly greater than T + L, and not expired for every
query time ≤ T + L. -/
theorem C4_expiry_strict_boundary (c c' : Client) (T L now : Int)
    (h : c.get_token T ⟨200, "tok", L⟩ = Except.ok c') :
    c'.token_has_expired now = Except.ok (decide (T + L < now)) := by
  have hok : isHttpError 200 = false := by decide
  unfold Client.get_token at h
  rw [hok] at h
  simp only [Bool.false_eq_true, if_false, Except.ok.injEq] at h
  subst h
  rfl

/-- C4 witness: instantiate at T = 5, L = 7, query time 12 = T + L, where
the token is reported not expired. -/
theorem C4_expiry_strict_boundary_witness :
    Client.token_has_expired { token := some "tok", expiry_time := some 12 } 12 =
      Except.ok (decide ((5 : Int) + 7 < 12)) :=
  C4_expiry_strict_boundary Client.init
    { token := some "tok", expiry_time := some 12 } 5 7 12 rfl

/-- C9: filename derivation is a pure function of the Recording fields:
`start_time ++ "_" ++ engagement_id ++ "_" ++ recording_id` followed by
".mp3" when `channel_type = "voice"` and ".mp4" otherwise; in particular
the spec's concrete example evaluates as stated. -/
theorem C9_filename_derivation :
    (∀ s e c r u : String,
      (Recording.mk s e c r u).filename =
        s ++ "_" ++ e ++ "_" ++ r ++ (if c = "voice" then ".mp3" else ".mp4")) ∧
    (Recording.mk "2023-10-05T12:00:00" "E1" "voice" "R1" "http://u").filename =
      "2023-10-05T12:00:00_E1_R1.mp3" := by
  constructor
  · intro s e c r u
    by_cases h : c = "voice"
    · simp only [Recording.filename, h, if_pos]
      simp only [String.append_assoc]
      rfl
    · have hb : (c == "voice") = false := beq_eq_false_iff_ne.mpr h
      simp only [Recording.filename, hb, Bool.false_eq_true, h, if_false]
      simp only [String.append_assoc]
      rfl
  · rfl

/-- Helper: a client with an expiry set and a successful token endpoint
passes the check-and-refresh step, and the resulting client again has an
expiry set. -/
theorem refresh_if_expired_ok (c : Client) (now : Int) (resp : TokenResponse)
    (hc : c.expiry_time.isSome = true)
    (hr : isHttpError resp.status = false) :
    ∃ c2, refresh_if_expired c now resp = Except.ok c2 ∧
      c2.expiry_time.isSome = true := by
  obtain ⟨t, ht⟩ := Option.isSome_iff_exists.mp hc
  by_cases hlt : t < now
  · have hstep : refresh_if_expired c now resp =
        Except.ok { token := some resp.access_token
                    expiry_time := some (now + resp.expires_in) } := by
      simp [refresh_if_expired, Client.token_has_expired, ht, hlt,
        Client.get_token, hr]
    exact ⟨_, hstep, rfl⟩
  · have hstep : refresh_if_expired c now resp = Except.ok c := by
      simp [refresh_if_expired, Client.token_has_expired, ht, hlt]
    exact ⟨c, hstep, by simp [ht]⟩

/-- Helper: the conditional append of a page's recordings equals the
unconditional append, since an empty array contributes nothing. -/
theorem append_if_isEmpty (acc : List Recording) (l : List ListElement) :
    (if l = [] then acc else acc ++ l.map mkRecording) =
      acc ++ l.map mkRecording := by
  cases l <;> simp

/-- Helper: on a well-shaped environment with successful token and page
responses, the listing loop issues one request per page and returns the
accumulator followed by the concatenation of all pages' recordings. -/
theorem list_loop_complete (env : List IterEnv) :
    ∀ (c : Client) (npt : String) (acc : List Recording),
    c.expiry_time.isSome = true → tokensOk env = true →
    pagesOk env = true → pagesShape env = true →
    (list_loop c npt acc env).requests.length = env.length ∧
    (list_loop c npt acc env).outcome = Except.ok (acc ++ allPageRecs env) := by
  induction env with
  | nil => intro c npt acc _ _ _ hsh; simp [pagesShape] at hsh
  | cons e rest ih =>
    intro c npt acc hc ht hp hsh
    have hte : isHttpError e.tokenResp.status = false := by
      simp [tokensOk] at ht; exact ht.1
    have hpe : isHttpError e.page.status = false := by
      simp [pagesOk] at hp; exact hp.1
    obtain ⟨c2, hre, hc2⟩ := refresh_if_expired_ok c e.now e.tokenResp hc hte
    by_cases hrest : rest.isEmpty
    · have hrnil : rest = [] := by simpa using hrest
      subst hrnil
      have hn : e.page.next_page_token = "" := by
        simpa [pagesShape] using hsh
      simp [list_loop, hre, hpe, hn, append_if_isEmpty, allPageRecs]
    · have hshr : pagesShape (e :: rest) =
          ((e.page.next_page_token != "") && pagesShape rest) := by
        simp [pagesShape, hrest]
      rw [hshr] at hsh
      simp only [Bool.and_eq_true] at hsh
      have hn : ¬ e.page.next_page_token = "" := by simpa using hsh.1
      have hsh' : pagesShape rest = true := hsh.2
      have ht' : tokensOk rest = true := by
        simp [tokensOk] at ht ⊢
        exact ht.2
      have hp' : pagesOk rest = true := by
        simp [pagesOk] at hp ⊢
        exact hp.2
      obtain ⟨ihlen, ihout⟩ :=
        ih c2 e.page.next_page_token
          (acc ++ e.page.recordings.map mkRecording) hc2 ht' hp' hsh'
      constructor
      · simp [list_loop, hre, hpe, hn, append_if_isEmpty, ihlen]
      · simp [list_loop, hre, hpe, hn, append_if_isEmpty, ihout, allPageRecs]

/-- Helper: if the loop reaches a page whose response is an HTTP error
(all earlier pages succeeding with non-empty cursors, all token
responses succeeding), it stops the process with exit code 1. -/
theorem list_loop_http_error (env : List IterEnv) :
    ∀ (c : Client) (npt : String) (acc : List Recording),
    c.expiry_time.isSome = true → tokensOk env = true →
    reachesHttpError env = true →
    (list_loop c npt acc env).outcome =
      Except.error (LoopStop.aborted (Abort.exitCode 1)) := by
  induction env with
  | nil => intro c npt acc _ _ he; simp [reachesHttpError] at he
  | cons e rest ih =>
    intro c npt acc hc ht he
    have hte : isHttpError e.tokenResp.status = false := by
      simp [tokensOk] at ht; exact ht.1
    obtain ⟨c2, hre, hc2⟩ := refresh_if_expired_ok c e.now e.tokenResp hc hte
    by_cases hpe : isHttpError e.page.status = true
    · simp [list_loop, hre, hpe]
    · have hpe' : isHttpError e.page.status = false := by
        simpa using hpe
      simp [reachesHttpError, hpe'] at he
      have ht' : tokensOk rest = true := by
        simp [tokensOk] at ht ⊢
        exact ht.2
      have hrec := ih c2 e.page.next_page_token
        (if e.page.recordings = [] then acc
         else acc ++ e.page.recordings.map mkRecording) hc2 ht' he.2
      simp [list_loop, hre, hpe', he.1]
      simpa using hrec

/-- C1: the code builds the params dict (`from`, `to`, `channel_type`,
`next_page_token`) but never passes it to `req.get`, so every request
the loop actually issues to the list endpoint carries no query
parameters at all — in particular none of the parameters the claim
lists. -/
theorem C1_requests_carry_no_query_params (env : List IterEnv) (c : Client)
    (npt : String) (acc : List Recording) :
    ((list_loop c npt acc env).requests).all
      (fun r => r.queryParams.isEmpty) = true := by
  induction env generalizing c npt acc with
  | nil => rfl
  | cons e rest ih =>
    cases hre : refresh_if_expired c e.now e.tokenResp with
    | error a => simp [list_loop, hre]
    | ok c2 =>
      by_cases hs : isHttpError e.page.status = true
      · simp [list_loop, hre, hs]
      · by_cases hn : e.page.next_page_token = ""
        · simp [list_loop, hre, hs, hn]
        · simp [list_loop, hre, hs, hn, ih]

/-- C2: on a sequence of N pages, each successful, every page but the
last carrying a non-empty cursor and the last an empty one, the listing
loop issues exactly N requests, terminates, and returns exactly the
concatenation of all pages' recordings in page-and-response order (a
page with zero recordings but a non-empty cursor does not end
pagination: the shape allows such pages and they contribute their empty
recording lists in place). -/
theorem C2_pagination_visits_every_page (c : Client)
    (dr : List (String × String)) (env : List IterEnv)
    (hc : c.expiry_time.isSome = true) (ht : tokensOk env = true)
    (hp : pagesOk env = true) (hsh : pagesShape env = true) :
    (get_recording_list c dr env).requests.length = env.length ∧
    (get_recording_list c dr env).outcome = Except.ok (allPageRecs env) := by
  have h := list_loop_complete env c "" [] hc ht hp hsh
  simpa [get_recording_list] using h

/-- C2 witness: a concrete two-page run whose first page has zero
recordings but a non-empty cursor; both pages are visited and the single
recording of page two is returned. -/
theorem C2_pagination_visits_every_page_witness :
    (get_recording_list cW [] envW).requests.length = envW.length ∧
    (get_recording_list cW [] envW).outcome = Except.ok (allPageRecs envW) :=
  C2_pagination_visits_every_page cW [] envW (by decide) (by decide)
    (by decide) (by decide)

/-- C6: if any page request during listing fails with an HTTP error
status (earlier pages succeeding with non-empty cursors), the process
exits with code 1; the outcome is an abort, not a partially accumulated
list. -/
theorem C6_listing_http_error_is_fatal (c : Client)
    (dr : List (String × String)) (env : List IterEnv)
    (hc : c.expiry_time.isSome = true) (ht : tokensOk env = true)
    (he : reachesHttpError env = true) :
    (get_recording_list c dr env).outcome =
      Except.error (LoopStop.aborted (Abort.exitCode 1)) := by
  have h := list_loop_http_error env c "" [] hc ht he
  simpa [get_recording_list] using h

/-- C6 witness: a concrete run whose second page answers HTTP 500; the
run exits with code 1 and the first page's recording is discarded. -/
theorem C6_listing_http_error_is_fatal_witness :
    (get_recording_list cW [] envE).outcome =
      Except.error (LoopStop.aborted (Abort.exitCode 1)) :=
  C6_listing_http_error_is_fatal cW [] envE (by decide) (by decide) (by decide)

/-- Helper: when the directory is creatable (no permission error), the
client has an expiry set and the token endpoint succeeds, one
`Recording.download` call returns `True`, issues the GET, leaves an
existing directory, and appends exactly one write event when the
download status is not an HTTP error. -/
theorem download_ok (rec : Recording) (c : Client) (fs : FS) (env : DlEnv)
    (hc : c.expiry_time.isSome = true) (hp : fs.permErr = false)
    (ht : isHttpError env.tokenResp.status = false) :
    ∃ c2, rec.download c fs env =
      { outcome := DlRet.returned true, client := c2
        fs := { dirExists := true, permErr := false
                files := fs.files ++ (if isHttpError env.status then []
                         else [(rec.filename, env.body)]) }
        mkdirAttempted := !fs.dirExists, getIssued := true } ∧
      c2.expiry_time.isSome = true := by
  obtain ⟨c2, hre, hc2⟩ := refresh_if_expired_ok c env.now env.tokenResp hc ht
  refine ⟨c2, ?_, hc2⟩
  by_cases hs : isHttpError env.status <;>
    simp [Recording.download, hp, hre, hs]

/-- C10: under a usable token and a creatable directory, `download`
returns `True` whatever the HTTP status of the download GET, and when
that status is an HTTP error (the caught per-item error branch) no file
is opened or written: the write events are unchanged. -/
theorem C10_download_always_true_no_write_on_error
    (rec : Recording) (c : Client) (fs : FS) (env : DlEnv)
    (hc : c.expiry_time.isSome = true) (hp : fs.permErr = false)
    (ht : isHttpError env.tokenResp.status = false) :
    (rec.download c fs env).outcome = DlRet.returned true ∧
    (isHttpError env.status = true →
      (rec.download c fs env).fs.files = fs.files) := by
  obtain ⟨c2, hd, _⟩ := download_ok rec c fs env hc hp ht
  constructor
  · rw [hd]
  · intro hs
    rw [hd]
    simp [hs]

/-- C10 witness: a concrete 404 download returns `True` and writes no
file. -/
theorem C10_download_always_true_no_write_on_error_witness :
    (recW.download cW fsW envD404).outcome = DlRet.returned true ∧
    (recW.download cW fsW envD404).fs.files = fsW.files := by
  have h := C10_download_always_true_no_write_on_error recW cW fsW envD404
    (by decide) (by decide) (by decide)
  exact ⟨h.1, h.2 (by decide)⟩

/-- C5: under a usable token and a creatable directory, no download
outcome aborts the batch: every recording in the list has its download
attempted, and exactly the recordings whose own GET succeeds are saved,
in order — in particular a non-2xx failure of one item leaves all
subsequent items attempted and saved on their own success. -/
theorem C5_batch_survives_item_failures (c : Client) (fs : FS)
    (items : List (Recording × DlEnv))
    (hc : c.expiry_time.isSome = true) (hp : fs.permErr = false)
    (ht : dlTokensOk items = true) :
    (download_batch c fs items).aborted = none ∧
    (download_batch c fs items).attempted = items.length ∧
    (download_batch c fs items).fs.files = fs.files ++ savedFiles items := by
  induction items generalizing c fs with
  | nil => simp [download_batch, savedFiles]
  | cons p rest ih =>
    obtain ⟨r, e⟩ := p
    have hte : isHttpError e.tokenResp.status = false := by
      simp [dlTokensOk] at ht; exact ht.1
    have ht' : dlTokensOk rest = true := by
      simp [dlTokensOk] at ht ⊢; exact ht.2
    obtain ⟨c2, hd, hc2⟩ := download_ok r c fs e hc hp hte
    by_cases hs : isHttpError e.status
    · have hd' : r.download c fs e =
          { outcome := DlRet.returned true, client := c2
            fs := { dirExists := true, permErr := false, files := fs.files }
            mkdirAttempted := !fs.dirExists, getIssued := true } := by
        rw [hd]; simp [hs]
      obtain ⟨ih1, ih2, ih3⟩ := ih c2
        { dirExists := true, permErr := false, files := fs.files } hc2 rfl ht'
      refine ⟨?_, ?_, ?_⟩ <;>
        simp [download_batch, hd', hs, savedFiles, ih1, ih2, ih3]
    · have hd' : r.download c fs e =
          { outcome := DlRet.returned true, client := c2
            fs := { dirExists := true, permErr := false
                    files := fs.files ++ [(r.filename, e.body)] }
            mkdirAttempted := !fs.dirExists, getIssued := true } := by
        rw [hd]; simp [hs]
      obtain ⟨ih1, ih2, ih3⟩ := ih c2
        { dirExists := true, permErr := false
          files := fs.files ++ [(r.filename, e.body)] } hc2 rfl ht'
      refine ⟨?_, ?_, ?_⟩ <;>
        simp [download_batch, hd', hs, savedFiles, ih1, ih2, ih3]

/-- C5 witness: a concrete batch whose first download fails with 404 and
whose second succeeds with 200: nothing aborts, both are attempted, and
exactly the second file is written. -/
theorem C5_batch_survives_item_failures_witness :
    (download_batch cW fsW [(recW, envD404), (recW2, envD200)]).aborted = none ∧
    (download_batch cW fsW [(recW, envD404), (recW2, envD200)]).attempted =
      [(recW, envD404), (recW2, envD200)].length ∧
    (download_batch cW fsW [(recW, envD404), (recW2, envD200)]).fs.files =
      fsW.files ++ savedFiles [(recW, envD404), (recW2, envD200)] :=
  C5_batch_survives_item_failures cW fsW [(recW, envD404), (recW2, envD200)]
    (by decide) (by decide) (by decide)

/-- C7: when the target directory is missing and its creation raises
`PermissionError`, the run exits with code 1 during the first download
call, before any download GET is issued and before any file is written,
and only that one directory-creation attempt ever happens — none of the
remaining recordings triggers another one. -/
theorem C7_permission_error_fatal_before_downloads (c : Client) (fs : FS)
    (p : Recording × DlEnv) (rest : List (Recording × DlEnv))
    (hd : fs.dirExists = false) (hp : fs.permErr = true) :
    (download_batch c fs (p :: rest)).aborted = some (Abort.exitCode 1) ∧
    (download_batch c fs (p :: rest)).getsIssued = 0 ∧
    (download_batch c fs (p :: rest)).mkdirAttempts = 1 ∧
    (download_batch c fs (p :: rest)).fs.files = fs.files := by
  obtain ⟨r, e⟩ := p
  simp [download_batch, Recording.download, hd, hp]

/-- C7 witness: a concrete two-recording batch over an uncreatable
directory exits with code 1, zero GETs, one mkdir attempt and no file
written. -/
theorem C7_permission_error_fatal_before_downloads_witness :
    (download_batch cW fsP ((recW, envD200) :: [(recW2, envD200)])).aborted =
      some (Abort.exitCode 1) ∧
    (download_batch cW fsP ((recW, envD200) :: [(recW2, envD200)])).getsIssued = 0 ∧
    (download_batch cW fsP ((recW, envD200) :: [(recW2, envD200)])).mkdirAttempts = 1 ∧
    (download_batch cW fsP ((recW, envD200) :: [(recW2, envD200)])).fs.files =
      fsP.files :=
  C7_permission_error_fatal_before_downloads cW fsP (recW, envD200)
    [(recW2, envD200)] (by decide) (by decide)

/-- C8 counterexample: run the one-item batch once with the download
answering 404 and once with it answering 200.  Every value surfaced to
the caller — the abort state and the list of values returned by the
`download` calls — is identical in the two runs, and the returned value
is the constant `True`; no error list distinguishes the failed run, so
no summary of failed items is surfaced. -/
theorem C8_no_failure_summary_counterexample :
    (download_batch cW fsW [(recW, envD404)]).aborted =
      (download_batch cW fsW [(recW, envD200)]).aborted ∧
    (download_batch cW fsW [(recW, envD404)]).returnedVals =
      (download_batch cW fsW [(recW, envD200)]).returnedVals ∧
    (download_batch cW fsW [(recW, envD404)]).returnedVals = [true] := by
  refine ⟨rfl, rfl, rfl⟩

/-- C8 (amended): per-item download failures are only logged at the
moment they happen; no error list is accumulated and no summary is
surfaced after the batch — each `download` call returns the constant
`True`, so the values reaching `main` are `True` for every item
regardless of which downloads failed. -/
theorem C8_returned_values_all_true (c : Client) (fs : FS)
    (items : List (Recording × DlEnv))
    (hc : c.expiry_time.isSome = true) (hp : fs.permErr = false)
    (ht : dlTokensOk items = true) :
    (download_batch c fs items).returnedVals =
      List.replicate items.length true := by
  induction items generalizing c fs with
  | nil => simp [download_batch]
  | cons p rest ih =>
    obtain ⟨r, e⟩ := p
    have hte : isHttpError e.tokenResp.status = false := by
      simp [dlTokensOk] at ht; exact ht.1
    have ht' : dlTokensOk rest = true := by
      simp [dlTokensOk] at ht ⊢; exact ht.2
    obtain ⟨c2, hd, hc2⟩ := download_ok r c fs e hc hp hte
    have ihv := ih c2
      { dirExists := true, permErr := false
        files := fs.files ++ (if isHttpError e.status then []
                 else [(r.filename, e.body)]) } hc2 rfl ht'
    simp [download_batch, hd, ihv, List.replicate]

/-- C8 amended-claim witness: in a concrete batch whose first download
fails, the values returned to `main` are `[true, true]`. -/
theorem C8_returned_values_all_true_witness :
    (download_batch cW fsW [(recW, envD404), (recW2, envD200)]).returnedVals =
      List.replicate [(recW, envD404), (recW2, envD200)].length true :=
  C8_returned_values_all_true cW fsW [(recW, envD404), (recW2, envD200)]
    (by decide) (by decide) (by decide)

end ZCC
